import Mathlib

/-!
Verification development for the SNTL (SCSI-to-NVMe translation layer) core of
sg3_utils, shallowly embedding the functions of `src/lib/sg_snt.c`.

Bytes are modelled as `Nat` values (all byte stores are either constants
< 256 or copies of input bytes); buffers are `List Nat`.  Reads past the
end of a C array are undefined behaviour in the source; they are modelled
as 0 and noted at the definitions concerned.
-/

namespace SgSnt

/-- A byte buffer. -/
abbrev Bytes := List Nat

/-- Read one byte of a buffer (C reads past a buffer's end are modelled as 0). -/
def getB (b : Bytes) (i : Nat) : Nat := b.getD i 0

/-- `sg_get_unaligned_be16` of `sg_unaligned.h`. -/
def be16 (b : Bytes) (i : Nat) : Nat := 256 * getB b i + getB b (i + 1)

/-- `sg_get_unaligned_be32` of `sg_unaligned.h`. -/
def be32 (b : Bytes) (i : Nat) : Nat :=
  256 * (256 * (256 * getB b i + getB b (i + 1)) + getB b (i + 2)) + getB b (i + 3)

/-- `sg_get_unaligned_le32` of `sg_unaligned.h`. -/
def le32 (b : Bytes) (i : Nat) : Nat :=
  getB b i + 256 * (getB b (i + 1) + 256 * (getB b (i + 2) + 256 * getB b (i + 3)))

/-- The two bytes stored by `sg_put_unaligned_be16`. -/
def be16Bytes (v : Nat) : Bytes := [v / 256 % 256, v % 256]

/-- The four bytes stored by `sg_put_unaligned_be32`. -/
def be32Bytes (v : Nat) : Bytes :=
  [v / 16777216 % 256, v / 65536 % 256, v / 256 % 256, v % 256]

/-- `memcpy(dst, src, cnt)` viewed from the destination: the `cnt` bytes
transferred.  Reads past `src`'s end are undefined behaviour in C and are
modelled as 0. -/
def memcpyFrom (src : Bytes) (cnt : Nat) : Bytes :=
  (List.range cnt).map (fun i => getB src i)

/-- `memcpy(b + off, src, src.length)` in place: writes `src` at offset `off`,
dropping any part that falls outside `b` (the theorems about the functions
below establish that in-source writes are in range). -/
def writeAt (b : Bytes) (off : Nat) (src : Bytes) : Bytes :=
  (List.range b.length).map
    (fun i => if off ≤ i ∧ i < off + src.length then getB src (i - off) else getB b i)

/-- `memset(b, 0, n)`. -/
def memsetN (b : Bytes) (n : Nat) : Bytes :=
  (List.range b.length).map (fun i => if i < n then 0 else getB b i)

@[simp] theorem memcpyFrom_length (src : Bytes) (cnt : Nat) :
    (memcpyFrom src cnt).length = cnt := by
  simp [memcpyFrom]

@[simp] theorem writeAt_length (b : Bytes) (off : Nat) (src : Bytes) :
    (writeAt b off src).length = b.length := by
  simp [writeAt]

theorem memcpyFrom_self (b : Bytes) : memcpyFrom b b.length = b := by
  apply List.ext_getElem
  · simp
  · intro i h1 h2
    simp only [memcpyFrom, List.getElem_map, List.getElem_range, getB]
    simp_all [List.getD_eq_getElem?_getD, List.getElem?_eq_getElem]

/-- `struct sg_snt_result_t` of `sg_snt.h`. -/
structure SgSntResult where
  sstatus : Nat
  sk : Nat
  asc : Nat
  ascq : Nat
  in_byte : Nat
  in_bit : Nat
deriving Repr, DecidableEq

/-- The all-zeros result record produced by `memset(resp, 0, sizeof(*resp))`. -/
def result0 : SgSntResult := ⟨0, 0, 0, 0, 0, 0⟩

/-- `struct sg_snt_dev_state_t` of `sg_snt.h`. -/
structure SgSntDevState where
  wce : Bool
  wce_changed : Bool
  scsi_dsense : Nat
  enclosure_override : Nat
  pdt : Nat
  enc_serv : Nat
  id_ctl253 : Nat
  oacs : Nat
  oncs : Nat
  vb : Int
deriving Repr, DecidableEq

/-- `SAM_STAT_CHECK_CONDITION` (standard SCSI status, sg_lib headers). -/
def SAM_STAT_CHECK_CONDITION : Nat := 0x2
/-- `SPC_SK_ILLEGAL_REQUEST` (standard SCSI sense key, sg_lib headers). -/
def SPC_SK_ILLEGAL_REQUEST : Nat := 0x5
def SAVING_PARAMS_UNSUP : Nat := 0x39
def INVALID_FIELD_IN_CDB : Nat := 0x24
def INVALID_FIELD_IN_PARAM_LIST : Nat := 0x26
def PARAMETER_LIST_LENGTH_ERR : Nat := 0x1a

/-- `sg_snt_mk_sense_asc_ascq` of sg_snt.c. -/
def sg_snt_mk_sense_asc_ascq (sk asc ascq : Nat) : SgSntResult :=
  ⟨SAM_STAT_CHECK_CONDITION, sk, asc, ascq, 0, 255⟩

/-- `sg_snt_mk_sense_invalid_fld` of sg_snt.c.  `in_byte` is stored into a
`uint16_t` field (hence the reduction mod 65536); the one C call site that
passes `in_bit = -1` is modelled by passing 255, the value the `uint8_t`
field receives. -/
def sg_snt_mk_sense_invalid_fld (in_cdb : Bool) (in_byte in_bit : Nat) : SgSntResult :=
  ⟨SAM_STAT_CHECK_CONDITION, SPC_SK_ILLEGAL_REQUEST,
   if in_cdb then INVALID_FIELD_IN_CDB else INVALID_FIELD_IN_PARAM_LIST, 0,
   in_byte % 65536, in_bit⟩

/-! ### The mutable static mode-page arrays of sg_snt.c

`caching_m_pg`, `ctrl_m_pg`, `iec_m_pg` and `vs_ua_m_pg` are mutable
`static uint8_t` arrays: MODE SELECT(10) copies accepted parameter pages
into them and MODE SENSE(10) reads them back (and rewrites the WCE bit of
`caching_m_pg`).  They are modelled as an explicit state record threaded
through the two calls. -/

def caching_m_pg_first : Bytes :=
  [0x8, 18, 0x14, 0, 0xff, 0xff, 0, 0, 0xff, 0xff, 0xff, 0xff, 0x80, 0x14, 0, 0, 0, 0, 0, 0]

def ctrl_m_pg_first : Bytes := [0xa, 10, 2, 0, 0, 0, 0, 0, 0, 0, 0x2, 0x4b]

def iec_m_pg_first : Bytes := [0x1c, 0xa, 0x08, 0, 0, 0, 0, 0, 0, 0, 0x0, 0x0]

/-- N.B. the source declares `vs_ua_m_pg` with 15 initialisers, so
`sizeof(vs_ua_m_pg)` is 15, one short of the 16 bytes its page-length byte
(0xe) announces. -/
def vs_ua_m_pg_first : Bytes := [0x0, 0xe, 0, 0, 0, 0, 0, 0, 0, 0, 0, 0, 0, 0, 0]

structure ModePgs where
  caching : Bytes
  ctrl : Bytes
  iec : Bytes
  vs_ua : Bytes
deriving Repr, DecidableEq

/-- The values of the static mode-page arrays before any MODE SELECT. -/
def modePgsFirst : ModePgs :=
  ⟨caching_m_pg_first, ctrl_m_pg_first, iec_m_pg_first, vs_ua_m_pg_first⟩

/-- `resp_disconnect_pg` of sg_snt.c (the bytes it stores; always 16 bytes). -/
def resp_disconnect_pg (pcontrol : Nat) : Bytes :=
  let pg : Bytes := [0x2, 0xe, 128, 128, 0, 10, 0, 0, 0, 0, 0, 0, 0, 0, 0, 0]
  if pcontrol = 1 then pg.take 2 ++ List.replicate 14 0 else pg

/-- `resp_caching_m_pg` of sg_snt.c: returns the new value of the static
`caching_m_pg` array (updated for `pcontrol` 0 or 3) and the 20 page bytes
stored. -/
def resp_caching_m_pg (caching : Bytes) (pcontrol : Nat) (wce : Bool) : Bytes × Bytes :=
  let caching' := if pcontrol = 0 ∨ pcontrol = 3 then
      caching.set 2 (if wce then getB caching 2 ||| 0x4 else getB caching 2 &&& 0xfb)
    else caching
  let out : Bytes :=
    if pcontrol = 1 then
      memcpyFrom caching' 2 ++ [0x4, 0, if wce then 0x4 else 0] ++ List.replicate 15 0
    else if pcontrol = 2 then
      [0x8, 18, 0x14 &&& 0xfb ||| (if wce then 0x4 else 0), 0, 0xff, 0xff, 0, 0,
       0xff, 0xff, 0xff, 0xff, 0x80, 0x14, 0, 0, 0, 0, 0, 0]
    else memcpyFrom caching' 20
  (caching', out)

/-- `resp_ctrl_m_pg` of sg_snt.c (the 12 page bytes stored). -/
def resp_ctrl_m_pg (ctrl : Bytes) (pcontrol : Nat) : Bytes :=
  if pcontrol = 1 then memcpyFrom ctrl 2 ++ [0x6, 0, 0, 0, 0, 0, 0, 0, 0, 0]
  else if pcontrol = 2 then [0xa, 10, 2, 0, 0, 0, 0, 0, 0, 0, 0x2, 0x4b]
  else memcpyFrom ctrl 12

/-- `resp_ctrl_ext_m_pg` of sg_snt.c; the static `ctrl_ext_m_pg` array is
never written by any function, so it is kept as a constant (32 bytes). -/
def resp_ctrl_ext_m_pg (pcontrol : Nat) : Bytes :=
  let pg : Bytes := [0x4a, 0x1, 0, 0x1c, 0, 0, 0x40, 0] ++ List.replicate 24 0
  if pcontrol = 1 then pg.take 4 ++ List.replicate 28 0 else pg

/-- `resp_iec_m_pg` of sg_snt.c (the 12 page bytes stored). -/
def resp_iec_m_pg (iec : Bytes) (pcontrol : Nat) : Bytes :=
  if pcontrol = 1 then memcpyFrom iec 2 ++ [0x4, 0xf, 0, 0, 0, 0, 0, 0, 0, 0]
  else if pcontrol = 2 then [0x1c, 0xa, 0x08, 0, 0, 0, 0, 0, 0, 0, 0, 0]
  else memcpyFrom iec 12

/-- `resp_vs_ua_m_pg` of sg_snt.c.  For `pcontrol` 1 and 2 the C writes 16
bytes but reports `sizeof(vs_ua_m_pg) = 15`; the 16th byte is 0 and is
immediately overwritten or never copied out, so the visible page is the
15 bytes modelled here. -/
def resp_vs_ua_m_pg (vs : Bytes) (pcontrol : Nat) : Bytes :=
  if pcontrol = 1 then memcpyFrom vs 2 ++ [0xff] ++ List.replicate 12 0
  else if pcontrol = 2 then [0x0, 0xe, 0, 0, 0, 0, 0, 0, 0, 0, 0, 0, 0, 0, 0]
  else memcpyFrom vs 15

@[simp] theorem resp_disconnect_pg_length (p : Nat) : (resp_disconnect_pg p).length = 16 := by
  unfold resp_disconnect_pg; split <;> simp

@[simp] theorem resp_caching_m_pg_length (c : Bytes) (p : Nat) (w : Bool) :
    (resp_caching_m_pg c p w).2.length = 20 := by
  unfold resp_caching_m_pg; dsimp only; split_ifs <;> simp

@[simp] theorem resp_ctrl_m_pg_length (c : Bytes) (p : Nat) :
    (resp_ctrl_m_pg c p).length = 12 := by
  unfold resp_ctrl_m_pg; split_ifs <;> simp

@[simp] theorem resp_ctrl_ext_m_pg_length (p : Nat) : (resp_ctrl_ext_m_pg p).length = 32 := by
  unfold resp_ctrl_ext_m_pg; split <;> simp

@[simp] theorem resp_iec_m_pg_length (c : Bytes) (p : Nat) :
    (resp_iec_m_pg c p).length = 12 := by
  unfold resp_iec_m_pg; split_ifs <;> simp

@[simp] theorem resp_vs_ua_m_pg_length (c : Bytes) (p : Nat) :
    (resp_vs_ua_m_pg c p).length = 15 := by
  unfold resp_vs_ua_m_pg; split_ifs <;> simp

/-- Modelled from the spec: `sg_lib_pdt_decay`, `sg_pdt_s_eq` and
`PDT_DISK_ZBC` live in sg_lib (not under src).  The spec speaks of
"disk-class" devices; the SCSI peripheral device types 0x0 (disk), 0xe
(simplified/RBC) and 0x14 (ZBC) decay to the disk class. -/
def pdt_is_disk (pdt : Nat) : Bool := pdt = 0 || pdt = 0xe || pdt = 0x14

/-- The result of `sg_snt_resp_mode_sense10`: the C return value, the bytes
written to `dip`, the final `*resp` record and the final values of the
static mode-page arrays. -/
structure SenseOut where
  ret : Int
  written : Bytes
  resp : SgSntResult
  mp : ModePgs
deriving Repr, DecidableEq

/-- The unclamped part of `sg_snt_resp_mode_sense10` of sg_snt.c: builds the
full response (`arr`, up to `offset` bytes) or fails with the sense data the
C places in `*resp`.  Returns the new value of the static `caching_m_pg`
array (the only static array MODE SENSE writes) and the full response,
whose length is the `offset` the C computes. -/
def modeSense10Core (mp : ModePgs) (dsp : SgSntDevState) (cdbp : Bytes) :
    Except SgSntResult (Bytes × Bytes) :=
  let dbd := getB cdbp 1 &&& 0x8 ≠ 0
  let pcontrol := (getB cdbp 2 &&& 0xc0) / 64
  let pcode := getB cdbp 2 &&& 0x3f
  let subpcode := getB cdbp 3
  let llbaa := getB cdbp 1 &&& 0x10 ≠ 0
  let is_disk := pdt_is_disk dsp.pdt
  let bd_len := if is_disk ∧ ¬ dbd then (if llbaa then 16 else 8) else 0
  if pcontrol = 3 then
    .error (sg_snt_mk_sense_asc_ascq SPC_SK_ILLEGAL_REQUEST SAVING_PARAMS_UNSUP 0)
  else
    let dev_spec := if is_disk then 0x10 else 0x0
    let bd : Bytes :=
      if bd_len = 8 then [0x00, 0x10, 0x00, 0x00, 0, 0, 0x02, 0x00]
      else if bd_len = 16 then
        [0, 0, 0, 0, 0, 0x10, 0, 0, 0, 0, 0, 0, 0x00, 0x00, 0x02, 0x00]
      else []
    let assemble := fun (caching' : Bytes) (body : Bytes) =>
      Except.ok (caching', be16Bytes (8 + bd_len + body.length - 2) ++
        [0, dev_spec, if bd_len = 16 then 1 else 0, 0, 0, bd_len] ++ bd ++ body)
    if pcode = 0x2 then
      if subpcode = 0 then assemble mp.caching (resp_disconnect_pg pcontrol)
      else .error (sg_snt_mk_sense_invalid_fld true 2 5)
    else if pcode = 0x8 then
      if is_disk ∧ subpcode = 0 then
        let r := resp_caching_m_pg mp.caching pcontrol dsp.wce
        assemble r.1 r.2
      else .error (sg_snt_mk_sense_invalid_fld true 2 5)
    else if pcode = 0xa then
      if subpcode = 0 then assemble mp.caching (resp_ctrl_m_pg mp.ctrl pcontrol)
      else if subpcode = 1 then assemble mp.caching (resp_ctrl_ext_m_pg pcontrol)
      else .error (sg_snt_mk_sense_invalid_fld true 2 5)
    else if pcode = 0x1c then
      if subpcode = 0 then assemble mp.caching (resp_iec_m_pg mp.iec pcontrol)
      else .error (sg_snt_mk_sense_invalid_fld true 2 5)
    else if pcode = 0x3f then
      if subpcode = 0 ∨ subpcode = 0xff then
        let r := resp_caching_m_pg mp.caching pcontrol dsp.wce
        let body := resp_disconnect_pg pcontrol
          ++ (if is_disk then r.2 else [])
          ++ resp_ctrl_m_pg mp.ctrl pcontrol
          ++ (if subpcode = 0xff then resp_ctrl_ext_m_pg pcontrol else [])
          ++ resp_iec_m_pg mp.iec pcontrol
          ++ resp_vs_ua_m_pg mp.vs_ua pcontrol
        assemble (if is_disk then r.1 else mp.caching) body
      else .error (sg_snt_mk_sense_invalid_fld true 3 255)
    else if pcode = 0x0 then
      assemble mp.caching (resp_vs_ua_m_pg mp.vs_ua pcontrol)
    else .error (sg_snt_mk_sense_invalid_fld true 2 5)

/-- `sg_snt_resp_mode_sense10` of sg_snt.c: clamps the response to the CDB
allocation length and the caller limit `mx_di_len` and copies it out. -/
def sg_snt_resp_mode_sense10 (mp : ModePgs) (dsp : SgSntDevState) (cdbp : Bytes)
    (mx_di_len : Nat) : SenseOut :=
  match modeSense10Core mp dsp cdbp with
  | .error r => ⟨-1, [], r, mp⟩
  | .ok (caching', full) =>
      let alloc_len := be16 cdbp 7
      let len := min (min alloc_len full.length) mx_di_len
      ⟨len, memcpyFrom full len, result0, {mp with caching := caching'}⟩

/-- The result of `sg_snt_resp_mode_select10`: the C return value, the final
`*resp` record, and the final static mode-page arrays and device state. -/
structure SelOut where
  ret : Int
  resp : SgSntResult
  mp : ModePgs
  dsp : SgSntDevState
deriving Repr, DecidableEq

/-- Reading `arr[i]` in `sg_snt_resp_mode_select10`: `arr` is a zeroed
512-byte array into which the first `rlen` bytes of the parameter list
`dop` were copied (a read beyond the 512 bytes is undefined behaviour in C
and is modelled as 0). -/
def arrRead (dop : Bytes) (rlen i : Nat) : Nat := if i < rlen then getB dop i else 0

/-- The device-state updates a MODE SELECT(10) performs: the C only ever
writes `wce` (together with `wce_changed`), `scsi_dsense` and
`enclosure_override` of `struct sg_snt_dev_state_t`. -/
structure SelCoreOut where
  ret : Int
  resp : SgSntResult
  mp : ModePgs
  wce_upd : Option Bool
  dsense_upd : Option Nat
  encov_upd : Option Nat
deriving Repr, DecidableEq

/-- Apply the recorded MODE SELECT(10) device-state updates. -/
def selApply (dsp : SgSntDevState) (z : SelCoreOut) : SgSntDevState :=
  let d1 := match z.wce_upd with
    | some w => {dsp with wce := w, wce_changed := true}
    | none => dsp
  let d2 := match z.dsense_upd with
    | some v => {d1 with scsi_dsense := v}
    | none => d1
  match z.encov_upd with
  | some e => {d2 with enclosure_override := e}
  | none => d2

/-- The part of `sg_snt_resp_mode_select10` after the CDB checks and the
copy into `arr`: `a` is the `arr` reader (`arrRead dop rlen`) and
`param_len` the CDB parameter list length.  MODE SELECT never reads the
device state, so `dsp` is not a parameter; its updates are recorded in the
result. -/
def selBodyCore (mp : ModePgs) (param_len rlen : Nat) (a : Nat → Nat) : SelCoreOut :=
  let md_len := 256 * a 0 + a 1 + 2
  if md_len > 2 then ⟨-1, sg_snt_mk_sense_invalid_fld false 0 255, mp, none, none, none⟩
  else
    let bd_len := 256 * a 6 + a 7
    let off := bd_len + 8
    let mpage := a off &&& 0x3f
    if a off &&& 0x80 ≠ 0 then
      ⟨-1, sg_snt_mk_sense_invalid_fld false off 7, mp, none, none, none⟩
    else
      let spf := a off &&& 0x40 ≠ 0
      let pg_len := if spf then 256 * a (off + 2) + a (off + 3) + 4 else a (off + 1) + 2
      let sub_mpage := if spf then a (off + 1) else 0
      if pg_len + off > param_len then
        ⟨-1, sg_snt_mk_sense_asc_ascq SPC_SK_ILLEGAL_REQUEST PARAMETER_LIST_LENGTH_ERR 0,
         mp, none, none, none⟩
      else
        let defCase : SelCoreOut :=
          ⟨-1, sg_snt_mk_sense_invalid_fld false off 5, mp, none, none, none⟩
        if mpage = 0x8 then
          if sub_mpage = 0 then
            if a (off + 1) = getB mp.caching 1 then
              let caching' := mp.caching.take 2 ++ (List.range 18).map (fun i => a (off + 2 + i))
              ⟨rlen, result0, {mp with caching := caching'},
               some (a (off + 2) &&& 0x4 ≠ 0), none, none⟩
            else defCase
          else defCase
        else if mpage = 0xa then
          if sub_mpage = 0 then
            if a (off + 1) = getB mp.ctrl 1 then
              let ctrl' := mp.ctrl.take 2 ++ (List.range 10).map (fun i => a (off + 2 + i))
              ⟨rlen, result0, {mp with ctrl := ctrl'},
               none, some (if a (off + 2) &&& 0x4 ≠ 0 then 1 else 0), none⟩
            else defCase
          else defCase
        else if mpage = 0x1c then
          if sub_mpage = 0 then
            if a (off + 1) = getB mp.iec 1 then
              let iec' := mp.iec.take 2 ++ (List.range 10).map (fun i => a (off + 2 + i))
              ⟨rlen, result0, {mp with iec := iec'}, none, none, none⟩
            else defCase
          else defCase
        else if mpage = 0x0 then
          if a (off + 1) = getB mp.vs_ua 1 then
            let vs' := mp.vs_ua.take 2 ++ (List.range 13).map (fun i => a (off + 2 + i))
            ⟨rlen, result0, {mp with vs_ua := vs'}, none, none, some (a (off + 2))⟩
          else ⟨rlen, result0, mp, none, none, none⟩
        else defCase

/-- `sg_snt_resp_mode_select10` of sg_snt.c. -/
def sg_snt_resp_mode_select10 (mp : ModePgs) (dsp : SgSntDevState) (cdbp dop : Bytes)
    (do_len : Nat) : SelOut :=
  let pf := getB cdbp 1 &&& 0x10
  let sp := getB cdbp 1 &&& 0x1
  let param_len := be16 cdbp 7
  if pf = 0 ∨ sp ≠ 0 ∨ param_len > 512 then
    let in_byte := if sp ≠ 0 then 1 else if pf = 0 then 1 else 7
    let in_bit := if sp ≠ 0 then 0 else if pf = 0 then 4 else 255
    ⟨-1, sg_snt_mk_sense_invalid_fld true in_byte in_bit, mp, dsp⟩
  else
    let rlen := min do_len param_len
    let z := selBodyCore mp param_len rlen (arrRead dop rlen)
    ⟨z.ret, z.resp, z.mp, selApply dsp z⟩

/-! ### Opcode table and REPORT SUPPORTED OPERATION CODES / TASK MGMT FNS -/

def F_SA_LOW : Nat := 0x80
def F_SA_HIGH : Nat := 0x100
def FF_SA : Nat := F_SA_HIGH ||| F_SA_LOW
def F_INV_OP : Nat := 0x200
def F_NEED_TS_SUP : Nat := 0x100000

/-- `struct sg_opcode_info_t` of `sg_snt.h`. -/
structure OpcodeInfo where
  doc_pdt : Int
  opcode : Nat
  sa : Nat
  flags : Nat
  len_mask : Bytes
deriving Repr, DecidableEq

/-- `sg_opcode_info_arr` of sg_snt.c (`sg_get_opcode_translation` returns it). -/
def sg_opcode_info_arr : List OpcodeInfo := [
  ⟨-1, 0x0, 0, 0, [6, 0, 0, 0, 0, 0xc7, 0, 0, 0, 0, 0, 0, 0, 0, 0, 0]⟩,
  ⟨-1, 0x3, 0, 0, [6, 0xe1, 0, 0, 0xff, 0xc7, 0, 0, 0, 0, 0, 0, 0, 0, 0, 0]⟩,
  ⟨-1, 0x12, 0, 0, [6, 0xe3, 0xff, 0xff, 0xff, 0xc7, 0, 0, 0, 0, 0, 0, 0, 0, 0, 0]⟩,
  ⟨0, 0x1b, 0, 0, [6, 0x1, 0, 0xf, 0xf7, 0xc7, 0, 0, 0, 0, 0, 0, 0, 0, 0, 0]⟩,
  ⟨-1, 0x1c, 0, 0, [6, 0x1, 0xff, 0xff, 0xff, 0xc7, 0, 0, 0, 0, 0, 0, 0, 0, 0, 0]⟩,
  ⟨-1, 0x1d, 0, 0, [6, 0xf7, 0x0, 0xff, 0xff, 0xc7, 0, 0, 0, 0, 0, 0, 0, 0, 0, 0]⟩,
  ⟨0, 0x25, 0, 0, [10, 0x1, 0xff, 0xff, 0xff, 0xff, 0, 0, 0x1, 0xc7, 0, 0, 0, 0, 0, 0]⟩,
  ⟨0, 0x28, 0, 0, [10, 0xff, 0xff, 0xff, 0xff, 0xff, 0x3f, 0xff, 0xff, 0xc7, 0, 0, 0, 0, 0, 0]⟩,
  ⟨0, 0x2a, 0, 0, [10, 0xfb, 0xff, 0xff, 0xff, 0xff, 0x3f, 0xff, 0xff, 0xc7, 0, 0, 0, 0, 0, 0]⟩,
  ⟨0, 0x2f, 0, 0, [10, 0xf6, 0xff, 0xff, 0xff, 0xff, 0x3f, 0xff, 0xff, 0xc7, 0, 0, 0, 0, 0, 0]⟩,
  ⟨0, 0x35, 0, 0, [10, 0x7, 0xff, 0xff, 0xff, 0xff, 0x3f, 0xff, 0xff, 0xc7, 0, 0, 0, 0, 0, 0]⟩,
  ⟨0, 0x41, 0, 0, [10, 0xff, 0xff, 0xff, 0xff, 0xff, 0x3f, 0xff, 0xff, 0xc7, 0, 0, 0, 0, 0, 0]⟩,
  ⟨-1, 0x55, 0, 0, [10, 0x13, 0x0, 0x0, 0x0, 0x0, 0x0, 0xff, 0xff, 0xc7, 0, 0, 0, 0, 0, 0]⟩,
  ⟨-1, 0x5a, 0, 0, [10, 0x18, 0xff, 0xff, 0x0, 0x0, 0x0, 0xff, 0xff, 0xc7, 0, 0, 0, 0, 0, 0]⟩,
  ⟨0, 0x88, 0, 0, [16, 0xff, 0xff, 0xff, 0xff, 0xff, 0xff, 0xff, 0xff, 0xff, 0xff, 0xff,
    0xff, 0xff, 0xff, 0xc7]⟩,
  ⟨0, 0x8a, 0, 0, [16, 0xfb, 0xff, 0xff, 0xff, 0xff, 0xff, 0xff, 0xff, 0xff, 0xff, 0xff,
    0xff, 0xff, 0xff, 0xc7]⟩,
  ⟨0, 0x8f, 0, 0, [16, 0xf6, 0xff, 0xff, 0xff, 0xff, 0xff, 0xff, 0xff, 0xff, 0xff, 0xff,
    0xff, 0xff, 0x3f, 0xc7]⟩,
  ⟨0, 0x91, 0, 0, [16, 0x7, 0xff, 0xff, 0xff, 0xff, 0xff, 0xff, 0xff, 0xff, 0xff, 0xff,
    0xff, 0xff, 0x3f, 0xc7]⟩,
  ⟨0, 0x93, 0, 0, [16, 0xff, 0xff, 0xff, 0xff, 0xff, 0xff, 0xff, 0xff, 0xff, 0xff, 0xff,
    0xff, 0xff, 0x3f, 0xc7]⟩,
  ⟨0, 0x9e, 0x10, F_SA_LOW, [16, 0x10, 0xff, 0xff, 0xff, 0xff, 0xff, 0xff, 0xff, 0xff, 0xff,
    0xff, 0xff, 0xff, 0x1, 0xc7]⟩,
  ⟨-1, 0xa0, 0, 0, [12, 0xe3, 0xff, 0, 0, 0, 0xff, 0xff, 0xff, 0xff, 0, 0xc7, 0, 0, 0, 0]⟩,
  ⟨-1, 0xa3, 0xc, F_SA_LOW, [12, 0xc, 0x87, 0xff, 0xff, 0xff, 0xff, 0xff, 0xff, 0xff, 0,
    0xc7, 0, 0, 0, 0]⟩,
  ⟨-1, 0xa3, 0xd, F_SA_LOW, [12, 0xd, 0x80, 0, 0, 0, 0xff, 0xff, 0xff, 0xff, 0, 0xc7, 0,
    0, 0, 0]⟩,
  ⟨-1, 0xa3, 0xf, F_SA_LOW ||| F_NEED_TS_SUP, [12, 0xf, 0x0, 0, 0, 0, 0xff, 0xff, 0xff,
    0xff, 0, 0xc7, 0, 0, 0, 0]⟩,
  ⟨-1, 0xa4, 0xf, F_SA_LOW ||| F_NEED_TS_SUP, [12, 0xf, 0x0, 0, 0, 0, 0xff, 0xff, 0xff,
    0xff, 0, 0xc7, 0, 0, 0, 0]⟩,
  ⟨-127, 0xff, 0xffff, 0xffff, [0, 0, 0, 0, 0, 0, 0, 0, 0, 0, 0, 0, 0, 0, 0, 0]⟩]

/-- The result of the four din-producing builders (`rep_opcodes`, `rep_tmfs`,
`inq`, `rluns`): the C return value, the bytes written to `dip` and the
final `*resp` record (these builders leave `*resp` untouched on success, so
the caller's initial record is passed through). -/
structure DinOut where
  ret : Int
  written : Bytes
  resp : SgSntResult
deriving Repr, DecidableEq

/-- One entry stored by the `reporting_opts = 0` loop of
`sg_snt_resp_rep_opcodes` (8 bytes, or 20 with command timeout descriptor;
unwritten bytes of the zeroed `arr` included). -/
def repAllEntry (rctd : Bool) (r : OpcodeInfo) : Bytes :=
  [r.opcode, 0] ++ be16Bytes r.sa ++
  [0, (if rctd then 0x2 else 0) ||| (if r.flags &&& FF_SA ≠ 0 then 0x1 else 0)] ++
  be16Bytes (getB r.len_mask 0) ++
  (if rctd then [0, 0xa] ++ List.replicate 10 0 else [])

/-- The "all commands" loop of `sg_snt_resp_rep_opcodes`: walks the opcode
table while the sentinel is not reached and `offset < a_len`, skipping
`F_INV_OP` rows; returns the final `(offset, count, entry bytes)`. -/
def repAllLoop (rctd : Bool) (a_len : Nat) :
    List OpcodeInfo → Nat → Nat → Bytes → Nat × Nat × Bytes
  | [], offset, count, acc => (offset, count, acc)
  | r :: rest, offset, count, acc =>
      if r.flags = 0xffff ∨ ¬ offset < a_len then (offset, count, acc)
      else if r.flags &&& F_INV_OP ≠ 0 then repAllLoop rctd a_len rest offset count acc
      else repAllLoop rctd a_len rest (offset + (if rctd then 20 else 8)) (count + 1)
            (acc ++ repAllEntry rctd r)

/-- The unclamped part of `sg_snt_resp_rep_opcodes` of sg_snt.c: the final
`offset` and the bytes of `arr` the response consists of, or the sense data
of the error paths.  `pg_sz` is the value of `sg_get_page_size()`. -/
def repOpcodesCore (cdbp : Bytes) (pg_sz : Nat) : Except SgSntResult (Nat × Bytes) :=
  let rctd := getB cdbp 2 &&& 0x80 ≠ 0
  let reporting_opts := getB cdbp 2 &&& 0x7
  let req_opcode := getB cdbp 3
  let req_sa := be16 cdbp 4
  let alloc_len := be32 cdbp 6
  if alloc_len < 4 ∨ alloc_len > 0xffff then .error (sg_snt_mk_sense_invalid_fld true 6 255)
  else
    let a_len := pg_sz - 72
    if reporting_opts = 0 then
      let z := repAllLoop rctd a_len sg_opcode_info_arr 4 0 []
      .ok (z.1, be32Bytes (z.2.1 * (if rctd then 20 else 8)) ++ z.2.2)
    else if reporting_opts ≤ 3 then
      let found := (sg_opcode_info_arr.takeWhile (fun r => r.flags != 0xffff)).find?
        (fun r => req_opcode == r.opcode && req_sa == r.sa)
      let supp1 : Except SgSntResult (Nat × Bytes) :=
        let base : Bytes := [0, (if rctd then 0x80 else 0) ||| 1, 0, 0]
        if rctd then .ok (16, base ++ [0, 0xa] ++ List.replicate 10 0) else .ok (4, base)
      match found with
      | none => supp1
      | some oip =>
          if oip.flags &&& F_INV_OP ≠ 0 then supp1
          else if reporting_opts = 1 ∧ oip.flags &&& FF_SA ≠ 0 then
            .error (sg_snt_mk_sense_invalid_fld true 2 2)
          else if reporting_opts = 2 ∧ oip.flags &&& FF_SA = 0 then
            .error (sg_snt_mk_sense_invalid_fld true 4 255)
          else
            let supp := if oip.flags &&& FF_SA = 0 then 3
                        else if req_sa ≠ oip.sa then 1 else 3
            let u := getB oip.len_mask 0
            let base : Bytes :=
              if supp = 3 then
                [0, 0] ++ be16Bytes u ++ [oip.opcode] ++
                  (List.range (u - 1)).map
                    (fun j => if j + 1 < 16 then getB oip.len_mask (j + 1) else 0xff)
              else [0, 0, 0, 0]
            let base := base.set 1 ((if rctd then 0x80 else 0) ||| supp)
            let offset := if supp = 3 then 4 + u else 4
            if rctd then .ok (offset + 12, base ++ [0, 0xa] ++ List.replicate 10 0)
            else .ok (offset, base)
    else .error (sg_snt_mk_sense_invalid_fld true 2 2)

/-- `sg_snt_resp_rep_opcodes` of sg_snt.c.  `dsp` is only read for verbose
logging (`dsp->vb`) and `oacs`/`oncs` only for the same logging, so the
device state is not a parameter; `resp0` is the caller's `*resp`, returned
unchanged on success. -/
def sg_snt_resp_rep_opcodes (cdbp : Bytes) (oacs oncs : Nat) (mx_di_len : Nat)
    (pg_sz : Nat) (resp0 : SgSntResult) : DinOut :=
  match repOpcodesCore cdbp pg_sz with
  | .error r => ⟨-1, [], r⟩
  | .ok (offset, full) =>
      let offset := min offset (pg_sz - 72)
      let len := min offset (be32 cdbp 6)
      let len := min len mx_di_len
      ⟨len, memcpyFrom full len, resp0⟩

/-- The natural (unclamped) REPORT SUPPORTED TASK MANAGEMENT FUNCTIONS
response length: 16 with the REPD bit, else 4. -/
def repTmfsNatural (cdbp : Bytes) : Nat := if getB cdbp 2 &&& 0x80 ≠ 0 then 16 else 4

/-- `sg_snt_resp_rep_tmfs` of sg_snt.c (`dsp` is only read for verbose
logging and is not a parameter; `resp0` is the caller's `*resp`). -/
def sg_snt_resp_rep_tmfs (cdbp : Bytes) (mx_di_len : Nat) (resp0 : SgSntResult) : DinOut :=
  let repd := getB cdbp 2 &&& 0x80 ≠ 0
  let alloc_len := be32 cdbp 6
  if alloc_len < 4 then ⟨-1, [], sg_snt_mk_sense_invalid_fld true 6 255⟩
  else
    let arr : Bytes := [0xc8, 0x1, 0, if repd then 0xc else 0] ++ List.replicate 12 0
    let len := min (repTmfsNatural cdbp) alloc_len
    let len := min len mx_di_len
    ⟨len, memcpyFrom arr len, resp0⟩

/-! ### INQUIRY, REPORT LUNS and the device-identification VPD builder -/

/-- The `"NVMe    "` vendor string (`nvme_scsi_vendor_str`). -/
def nvme_scsi_vendor_str : Bytes := [0x4e, 0x56, 0x4d, 0x65, 0x20, 0x20, 0x20, 0x20]

/-- `PDT_SES` (standard SCSI pdt for enclosure services, sg_lib headers). -/
def PDT_SES : Nat := 0xd
/-- `PDT_UNKNOWN` (standard SCSI pdt 0x1f, sg_lib headers). -/
def PDT_UNKNOWN : Nat := 0x1f
/-- `SG_NVME_VPD_NICR` (vendor specific VPD page number, sg_nvme.h). -/
def SG_NVME_VPD_NICR : Nat := 0xde

/-- Modelled from the spec: `sg_last_n_non_blank` (sg_lib, not under src)
returns the last `n` non-blank characters of its input; the INQUIRY
revision field is "the last 4 non-blank characters of the NVMe Firmware
Revision".  Shorter results are padded (modelled with 0). -/
def lastNNonBlank (s : Bytes) (n : Nat) : Bytes :=
  let t := (s.reverse.dropWhile (fun c => c = 32)).reverse
  t.drop (t.length - n) ++ List.replicate (n - t.length) 0

/-- `sg_snt_std_inq` of sg_snt.c: the 74-byte standard INQUIRY response. -/
def sg_snt_std_inq (ctl : Bytes) (pdt : Nat) (enc_serv : Bool) : Bytes :=
  let b6 := (if enc_serv then 0x40 else 0) ||| (if getB ctl 76 &&& 0x1 ≠ 0 then 0x10 else 0)
  let rev4 := lastNNonBlank ((memcpyFrom (ctl.drop 64) 8).takeWhile (fun c => c ≠ 0)) 4
  let vd64 : Bytes :=
    if pdt = PDT_SES then be16Bytes 0x0682
    else if pdt = PDT_UNKNOWN then [0, 0]
    else be16Bytes 0x0602
  [pdt &&& 0x1f, 0, 7, 2, 69, 0, b6, 0x2] ++ nvme_scsi_vendor_str ++
  memcpyFrom (ctl.drop 24) 16 ++ rev4 ++ List.replicate 22 0 ++
  [0x00, 0xC2, 0x05, 0xC2, 0x1f, 0x60] ++ vd64 ++ List.replicate 8 0

/-- `sg_all_zeros(b + off, n)` of sg_lib: all `n` bytes at `off` are zero. -/
def allZerosAt (b : Bytes) (off n : Nat) : Bool :=
  (List.range n).all (fun i => getB b (off + i) = 0)

/-- An ASCII upper-case hex digit (as stored by `snprintf(b, _, "%02X", v)`). -/
def hexDigitU (d : Nat) : Nat := if d < 10 then 48 + d else 55 + d

/-- The two ASCII chars of `snprintf(b, _, "%02X", v)` for a byte `v`. -/
def hexByteU (v : Nat) : Bytes := [hexDigitU (v / 16 % 16), hexDigitU (v % 16)]

/-- The model-number trailing-space loop of `sg_make_vpd_devid_for_nvme`
(lines 177-182): starting at `k`, replaces trailing spaces of the 40-byte
MN field (dip[16..55]) with underscores and returns the final `k`. -/
def mnTrim : Bytes → Nat → Bytes × Nat
  | dip, 0 => (dip, 0)
  | dip, k + 1 =>
      if getB dip (16 + k) = 32 then mnTrim (writeAt dip (16 + k) [95]) k else (dip, k + 1)

/-- The serial-number trailing-space loop of `sg_make_vpd_devid_for_nvme`
(lines 189-194): NUL-fills trailing spaces of the 20 SN bytes at `n` and
returns the final `k`. -/
def snTrim (n : Nat) : Bytes → Nat → Bytes × Nat
  | dip, 0 => (dip, 0)
  | dip, k + 1 =>
      if getB dip (n + k) = 32 then snTrim n (writeAt dip (n + k) [0]) k else (dip, k + 1)

/-- The T10 vendor-ID designator part of `sg_make_vpd_devid_for_nvme`
(lines 161-198): returns the buffer and `some n` to continue with, or
`none` where the C returns 0 (before the namespace designators). -/
def devidT10 (ctl : Bytes) (pdt : Nat) (tproto : Int) (dip0 : Bytes) (maxd : Nat) :
    Bytes × Option Nat :=
  if maxd < 56 then (dip0, none)
  else
    let dip := memsetN dip0 maxd
    let dip := writeAt dip 0 [pdt &&& 0x1f, 0x83]
    let dip := if 0 ≤ tproto then
        writeAt dip 4 [(tproto.toNat &&& 0xf) <<< 4 ||| 0x2, 0xa1]
      else writeAt dip 4 [0x2, 0x21]
    let dip := writeAt dip 8 nvme_scsi_vendor_str
    let dip := writeAt dip 16 (memcpyFrom (ctl.drop 24) 40)
    let z := mnTrim dip 40
    let dip := z.1
    let k := if z.2 = 40 then 39 else z.2
    let n := 16 + 1 + k
    if maxd < n + 20 then (dip, none)
    else
      let dip := writeAt dip n (memcpyFrom (ctl.drop 4) 20)
      let z2 := snTrim n dip 20
      let dip := z2.1
      let n := n + z2.2
      let n := if n % 4 ≠ 0 then (n / 4 + 1) * 4 else n
      let dip := writeAt dip 7 [n - 8]
      (dip, some n)

/-- `sg_make_vpd_devid_for_nvme` of sg_snt.c.  `hasNs` models a non-NULL
`nvme_id_ns_p`; the result is the C return value and the final buffer. -/
def sg_make_vpd_devid_for_nvme (ctl ns : Bytes) (hasNs : Bool) (pdt : Nat)
    (tproto : Int) (dip0 : Bytes) (maxd : Nat) : Nat × Bytes :=
  match devidT10 ctl pdt tproto dip0 maxd with
  | (dip, none) => (0, dip)
  | (dip, some n) =>
    if ¬ hasNs then (n, dip)
    else
      let have_nguid := ¬ allZerosAt ns 104 16
      let have_eui64 := ¬ allZerosAt ns 120 8
      if ¬ have_nguid ∧ ¬ have_eui64 then (n, dip)
      else if have_nguid then
        if maxd < n + 20 then (n, dip)
        else
          let dip := writeAt dip n ([0x1, 0x02, 0, 16] ++ memcpyFrom (ns.drop 104) 16)
          let n := n + 20
          if maxd < n + 40 then (n, dip)
          else
            let dip := writeAt dip n ([0x3, 0x08, 0, 36] ++ [0x65, 0x75, 0x69, 0x2e] ++
              (List.range 16).flatMap (fun k => hexByteU (getB ns (104 + k))))
            (n + 40, dip)
      else
        if maxd < n + 12 then (n, dip)
        else
          let dip := writeAt dip n ([0x1, 0x02, 0, 8] ++ memcpyFrom (ns.drop 120) 8)
          let n := n + 12
          if maxd < n + 24 then (n, dip)
          else
            let dip := writeAt dip n ([0x3, 0x08, 0, 20] ++ [0x65, 0x75, 0x69, 0x2e] ++
              (List.range 8).flatMap (fun k => hexByteU (getB ns (120 + k))))
            (n + 24, dip)

/-- The unclamped part of `sg_snt_resp_inq` of sg_snt.c: the natural
response length `n` and the source bytes the final copy reads (for the
NICR page that source is the 64-byte header followed by the NVMe Identify
controller response, matching the split `cp_id_ctl` copy). -/
def inqCore (dsp : SgSntDevState) (cdbp ctl ns : Bytes) (hasNs : Bool) :
    Except SgSntResult (Nat × Bytes) :=
  if getB cdbp 1 &&& 0x2 ≠ 0 then .error (sg_snt_mk_sense_invalid_fld true 1 1)
  else
    let evpd := getB cdbp 1 &&& 0x1 ≠ 0
    let pg_cd := getB cdbp 2
    if evpd then
      if pg_cd = 0 then
        .ok (12, [0, 0, 0, 8, 0x0, 0x80, 0x83, 0x86, 0x87, 0x92, 0xb1, SG_NVME_VPD_NICR])
      else if pg_cd = 0x80 then .ok (24, [0, 0x80, 0, 20] ++ memcpyFrom (ctl.drop 4) 20)
      else if pg_cd = 0x83 then
        let z := sg_make_vpd_devid_for_nvme ctl ns hasNs dsp.pdt (-1)
          (List.replicate 256 0) 256
        let dip := if z.1 > 3 then writeAt z.2 2 (be16Bytes (z.1 - 4)) else z.2
        .ok (z.1, dip)
      else if pg_cd = 0x86 then
        .ok (64, [0, 0x86, 0, 60, 0, 0x1, 0, 0x1, 0, 0, 0, 0, 0, 0x40] ++
          List.replicate 50 0)
      else if pg_cd = 0x87 then .ok (8, [0, 0x87, 0, 4, 0x3f, 0xff, 0x80, 0])
      else if pg_cd = 0x92 then .ok (10, [0, 0x92, 0, 6, 0, 0, 0, 0, 0, 0x1])
      else if pg_cd = 0xb1 then
        .ok (64, [0, 0xb1, 0, 0x3c, 0, 0x01] ++ List.replicate 58 0)
      else if pg_cd = SG_NVME_VPD_NICR then
        .ok (64 + 4096, ([0, SG_NVME_VPD_NICR] ++ be16Bytes (64 + 4096 - 4) ++
          [0, 0, 0, 0] ++
          [0x53, 0x47, 0x33, 0x5f, 0x55, 0x54, 0x49, 0x4c] ++
          [0x53, 0x4e, 0x54, 0x20, 0x69, 0x6e, 0x20, 0x73,
           0x67, 0x33, 0x5f, 0x75, 0x74, 0x69, 0x6c, 0x73] ++
          [0x30, 0x31, 0x30, 0x30] ++ List.replicate 28 0) ++ ctl)
      else .error (sg_snt_mk_sense_invalid_fld true 2 7)
    else .ok (74, sg_snt_std_inq ctl dsp.pdt (dsp.enc_serv ≠ 0))

/-- `sg_snt_resp_inq` of sg_snt.c: with a positive allocation length the
response is clamped to `min(alloc_len, n, mx_di_len)` and copied; with a
zero allocation length nothing is written and the natural length is
returned. -/
def sg_snt_resp_inq (dsp : SgSntDevState) (cdbp ctl ns : Bytes) (hasNs : Bool)
    (mx_di_len : Nat) (resp0 : SgSntResult) : DinOut :=
  match inqCore dsp cdbp ctl ns hasNs with
  | .error r => ⟨-1, [], r⟩
  | .ok (n, src) =>
      let alloc_len := be16 cdbp 3
      if alloc_len > 0 then
        let n' := min (min alloc_len n) mx_di_len
        ⟨n', memcpyFrom src n', resp0⟩
      else ⟨n, [], resp0⟩

/-- The unclamped part of `sg_snt_resp_rluns` of sg_snt.c: the natural
length `num * 8 + 8` and the `rl_din` buffer contents (LUN entries are only
stored below the 256-byte bound; the C stores `num * 8` through a 32-bit
value and an `int`, which the theorems bound).  N.B. the C never memsets
its `rl_din` local, so every byte it does not explicitly store — bytes 4..7
and the last 6 bytes of each LUN entry — is uninitialised stack garbage;
they appear as 0 here as mere placeholders and no theorem may rely on their
values.  `dsp` is only read for verbose logging and is not a parameter. -/
def rlunsCore (cdbp ctl : Bytes) (nsid : Nat) : Except SgSntResult (Nat × Bytes) :=
  let sel_report := getB cdbp 2
  let max_nsid := le32 ctl 516
  let num? : Option Nat :=
    if sel_report = 0 ∨ sel_report = 2 then some max_nsid
    else if sel_report = 1 ∨ sel_report = 0x10 ∨ sel_report = 0x12 then some 0
    else if sel_report = 0x11 then some (if nsid = 1 then max_nsid else 0)
    else none
  match num? with
  | none => .error (sg_snt_mk_sense_invalid_fld true 2 7)
  | some num =>
      let entries := (List.range (min num 31)).flatMap (fun k => [0, k, 0, 0, 0, 0, 0, 0])
      .ok (num * 8 + 8, be32Bytes (num * 8) ++ [0, 0, 0, 0] ++ entries)

/-- `sg_snt_resp_rluns` of sg_snt.c (note the `uint16_t` truncation of the
32-bit allocation length, and that the unsupported-selector path returns 0,
not -1). -/
def sg_snt_resp_rluns (cdbp ctl : Bytes) (nsid : Nat) (mx_di_len : Nat)
    (resp0 : SgSntResult) : DinOut :=
  match rlunsCore cdbp ctl nsid with
  | .error r => ⟨0, [], r⟩
  | .ok (n, src) =>
      let alloc_len := be32 cdbp 6 % 65536
      if alloc_len > 0 then
        let n' := min (min alloc_len n) mx_di_len
        ⟨n', memcpyFrom src n', resp0⟩
      else ⟨n, [], resp0⟩

/-! ### Concrete inputs used by counterexamples and witnesses -/

/-- A plain disk-class device state (pdt 0). -/
def dspA : SgSntDevState := ⟨false, false, 0, 0, 0, 0, 0, 0, 0, 0⟩

/-- MODE SENSE(10) CDB: IEC page 0x1c, pcontrol 0, allocation length 255. -/
def cdbSenseIec : Bytes := [0x5a, 0, 0x1c, 0, 0, 0, 0, 0, 255, 0]

/-- MODE SELECT(10) CDB: PF=1, SP=0, parameter list length 20. -/
def cdbSelIec : Bytes := [0x55, 0x10, 0, 0, 0, 0, 0, 0, 20, 0]

/-- MODE SELECT(10) parameter list carrying an IEC page (0x1c, length 0xa)
whose third byte is 0 instead of the current 0x08. -/
def dopSelIec : Bytes := [0, 0, 0, 0, 0, 0, 0, 0, 0x1c, 0x0a, 0x00, 0, 0, 0, 0, 0, 0, 0, 0, 0]

/-- MODE SELECT(10) CDB: PF=1, SP=0, parameter list length 15. -/
def cdbSelVsUa : Bytes := [0x55, 0x10, 0, 0, 0, 0, 0, 0, 15, 0]

/-- MODE SELECT(10) parameter list carrying a vendor Unit-Attention page
(0x0) whose page-length byte is 5, not the 0xe the internal page stores. -/
def dopSelVsUa : Bytes := [0, 0, 0, 0, 0, 0, 0, 0, 0x00, 0x05, 1, 2, 3, 4, 5]

/-- An Identify-controller buffer whose Model Number (bytes 24..63) is 20
non-blank bytes followed by 20 spaces and whose Serial Number (bytes 4..23)
is 20 non-blank bytes. -/
def ctlDevidBug : Bytes :=
  List.replicate 4 0 ++ List.replicate 20 0x41 ++
  (List.replicate 20 0x42 ++ List.replicate 20 0x20)

/-- An Identify-namespace buffer with a non-zero NGUID (bytes 104..119). -/
def nsDevidBug : Bytes := List.replicate 104 0 ++ List.replicate 16 0xab

/-! ### Claims -/

/-- C2: for every non-sentinel, non-`F_INV_OP` row of `sg_opcode_info_arr`,
the REPORT SUPPORTED OPERATION CODES "one command" path (reporting option
3, and 1 for rows without `FF_SA` / 2 for rows with it), queried with the
row's opcode and service action, reports support value 3 and copies the
row's CDB length `len_mask[0]` and usage-mask bytes `len_mask[1..]` into
the response. -/
theorem opcode_table_one_command_roundtrip :
    ∀ r ∈ sg_opcode_info_arr, r.flags ≠ 0xffff → r.flags &&& F_INV_OP = 0 →
    ∀ ropt ∈ [3, if r.flags &&& FF_SA ≠ 0 then 2 else 1],
      (sg_snt_resp_rep_opcodes ([0xa3, 0xc, ropt, r.opcode] ++ be16Bytes r.sa ++
          [0, 0, 0xff, 0xff]) 0 0 64 4096 result0).ret =
        ((4 + getB r.len_mask 0 : Nat) : Int) ∧
      (sg_snt_resp_rep_opcodes ([0xa3, 0xc, ropt, r.opcode] ++ be16Bytes r.sa ++
          [0, 0, 0xff, 0xff]) 0 0 64 4096 result0).written =
        [0, 3] ++ be16Bytes (getB r.len_mask 0) ++ [r.opcode] ++
          (List.range (getB r.len_mask 0 - 1)).map (fun j => getB r.len_mask (j + 1)) := by
  decide

/-- Witness for C2 at the TEST UNIT READY row with reporting option 3. -/
theorem opcode_table_one_command_roundtrip_witness :
    (⟨-1, 0x0, 0, 0, [6, 0, 0, 0, 0, 0xc7, 0, 0, 0, 0, 0, 0, 0, 0, 0, 0]⟩ : OpcodeInfo) ∈
      sg_opcode_info_arr ∧
    ((sg_snt_resp_rep_opcodes ([0xa3, 0xc, 3, 0x0] ++ be16Bytes 0 ++ [0, 0, 0xff, 0xff])
        0 0 64 4096 result0).ret = ((4 + 6 : Nat) : Int) ∧
     (sg_snt_resp_rep_opcodes ([0xa3, 0xc, 3, 0x0] ++ be16Bytes 0 ++ [0, 0, 0xff, 0xff])
        0 0 64 4096 result0).written =
       [0, 3, 0, 6, 0x0, 0, 0, 0, 0, 0xc7]) := by
  refine ⟨by decide, ?_⟩
  have h := opcode_table_one_command_roundtrip
    ⟨-1, 0x0, 0, 0, [6, 0, 0, 0, 0, 0xc7, 0, 0, 0, 0, 0, 0, 0, 0, 0, 0]⟩
    (by decide) (by decide) (by decide) 3 (by decide)
  exact ⟨h.1, by simpa using h.2⟩

/-- C3 counterexample: a MODE SELECT(10) that stores a changed IEC page
leaves every `device_state` field unchanged yet alters the output of a
subsequent MODE SENSE(10) with identical device state, CDB and buffers —
the static mode-page arrays are hidden mutable state. -/
theorem sntl_hidden_static_state_cex :
    (sg_snt_resp_mode_select10 modePgsFirst dspA cdbSelIec dopSelIec 20).dsp = dspA ∧
    (sg_snt_resp_mode_select10 modePgsFirst dspA cdbSelIec dopSelIec 20).ret = 20 ∧
    (sg_snt_resp_mode_sense10
        (sg_snt_resp_mode_select10 modePgsFirst dspA cdbSelIec dopSelIec 20).mp
        dspA cdbSenseIec 255).written ≠
      (sg_snt_resp_mode_sense10 modePgsFirst dspA cdbSenseIec 255).written := by
  decide

theorem selApply_dsp_frame (dsp : SgSntDevState) (z : SelCoreOut) :
    (selApply dsp z).pdt = dsp.pdt ∧
    (selApply dsp z).enc_serv = dsp.enc_serv ∧
    (selApply dsp z).id_ctl253 = dsp.id_ctl253 ∧
    (selApply dsp z).oacs = dsp.oacs ∧
    (selApply dsp z).oncs = dsp.oncs ∧
    (selApply dsp z).vb = dsp.vb := by
  unfold selApply
  rcases z with ⟨ret, resp, mp, w, v, e⟩
  rcases w with _ | w <;> rcases v with _ | v <;> rcases e with _ | e <;>
    exact ⟨rfl, rfl, rfl, rfl, rfl, rfl⟩

/-- C3 (amended): SNTL MODE SENSE/SELECT are stateless across calls except
for the caller-owned `device_state` record AND the static mode-page
current-value arrays: MODE SELECT(10) changes no `device_state` field other
than `wce`, `wce_changed`, `scsi_dsense` and `enclosure_override`, and MODE
SENSE(10) changes no static page other than the Caching page. -/
theorem sntl_state_frame_amended :
    (∀ mp dsp cdbp dop do_len,
      (sg_snt_resp_mode_select10 mp dsp cdbp dop do_len).dsp.pdt = dsp.pdt ∧
      (sg_snt_resp_mode_select10 mp dsp cdbp dop do_len).dsp.enc_serv = dsp.enc_serv ∧
      (sg_snt_resp_mode_select10 mp dsp cdbp dop do_len).dsp.id_ctl253 = dsp.id_ctl253 ∧
      (sg_snt_resp_mode_select10 mp dsp cdbp dop do_len).dsp.oacs = dsp.oacs ∧
      (sg_snt_resp_mode_select10 mp dsp cdbp dop do_len).dsp.oncs = dsp.oncs ∧
      (sg_snt_resp_mode_select10 mp dsp cdbp dop do_len).dsp.vb = dsp.vb) ∧
    (∀ mp dsp cdbp mx,
      (sg_snt_resp_mode_sense10 mp dsp cdbp mx).mp.ctrl = mp.ctrl ∧
      (sg_snt_resp_mode_sense10 mp dsp cdbp mx).mp.iec = mp.iec ∧
      (sg_snt_resp_mode_sense10 mp dsp cdbp mx).mp.vs_ua = mp.vs_ua) := by
  constructor
  · intro mp dsp cdbp dop do_len
    unfold sg_snt_resp_mode_select10
    dsimp only
    split
    · exact ⟨rfl, rfl, rfl, rfl, rfl, rfl⟩
    · exact selApply_dsp_frame dsp _
  · intro mp dsp cdbp mx
    unfold sg_snt_resp_mode_sense10
    rcases hcore : modeSense10Core mp dsp cdbp with r | z
    · exact ⟨rfl, rfl, rfl⟩
    · exact ⟨rfl, rfl, rfl⟩

/-- C5 (code bug): with `max_di_len = 57` and an Identify-controller
response whose model number has 20 trailing spaces and whose serial number
has none, `sg_make_vpd_devid_for_nvme` pads the T10 designator to a 4-byte
boundary past the end of the buffer and returns 60, exceeding
`max_di_len` — contrary to its own header comment ("will not exceed
max_di_len") and to the claim's "returns the number of bytes already
written". -/
theorem devid_return_exceeds_max_di_len :
    (sg_make_vpd_devid_for_nvme ctlDevidBug nsDevidBug true 0 (-1)
        (List.replicate 57 0xee) 57).1 = 60 := by
  decide

/-- C7: a MODE SELECT(10) CDB with PF=0 and SP=0 is rejected with
CHECK CONDITION, ILLEGAL_REQUEST, INVALID_FIELD_IN_CDB, byte 1 bit 4, and
neither the device state nor the static pages change. -/
theorem mode_select_pf0_rejected (mp : ModePgs) (dsp : SgSntDevState) (cdbp dop : Bytes)
    (do_len : Nat) (hpf : getB cdbp 1 &&& 0x10 = 0) (hsp : getB cdbp 1 &&& 0x1 = 0) :
    sg_snt_resp_mode_select10 mp dsp cdbp dop do_len =
      ⟨-1, ⟨SAM_STAT_CHECK_CONDITION, SPC_SK_ILLEGAL_REQUEST, INVALID_FIELD_IN_CDB, 0, 1, 4⟩,
       mp, dsp⟩ := by
  unfold sg_snt_resp_mode_select10
  dsimp only
  rw [if_pos (Or.inl hpf)]
  simp [hpf, hsp, sg_snt_mk_sense_invalid_fld]

/-- Witness for C7 at a concrete all-zero CDB. -/
theorem mode_select_pf0_rejected_witness :
    getB [0x55, 0, 0, 0, 0, 0, 0, 0, 0, 0] 1 &&& 0x10 = 0 ∧
    sg_snt_resp_mode_select10 modePgsFirst dspA [0x55, 0, 0, 0, 0, 0, 0, 0, 0, 0] [] 0 =
      ⟨-1, ⟨SAM_STAT_CHECK_CONDITION, SPC_SK_ILLEGAL_REQUEST, INVALID_FIELD_IN_CDB, 0, 1, 4⟩,
       modePgsFirst, dspA⟩ :=
  ⟨by decide, mode_select_pf0_rejected modePgsFirst dspA _ [] 0 (by decide) (by decide)⟩

/-- C9: a well-formed MODE SELECT(10) CDB (PF=1, SP=0, parameter length in
bounds) whose parameter list starts with a non-zero big-endian
mode-data-length is rejected with CHECK CONDITION, ILLEGAL_REQUEST,
INVALID_FIELD_IN_PARAM_LIST, byte pointer 0, no bit position, before any
mode page or device-state field is touched. -/
theorem mode_select_nonzero_mdlen_rejected (mp : ModePgs) (dsp : SgSntDevState)
    (cdbp dop : Bytes) (do_len : Nat)
    (hpf : getB cdbp 1 &&& 0x10 ≠ 0) (hsp : getB cdbp 1 &&& 0x1 = 0)
    (hpl : be16 cdbp 7 ≤ 512)
    (hmd : 256 * arrRead dop (min do_len (be16 cdbp 7)) 0 +
           arrRead dop (min do_len (be16 cdbp 7)) 1 ≠ 0) :
    sg_snt_resp_mode_select10 mp dsp cdbp dop do_len =
      ⟨-1, ⟨SAM_STAT_CHECK_CONDITION, SPC_SK_ILLEGAL_REQUEST, INVALID_FIELD_IN_PARAM_LIST,
            0, 0, 255⟩, mp, dsp⟩ := by
  unfold sg_snt_resp_mode_select10 selBodyCore
  dsimp only
  rw [if_neg (by push_neg; exact ⟨hpf, hsp, by omega⟩), if_pos (by omega)]
  rfl

/-- Witness for C9: parameter list starting with bytes 0x00 0x01. -/
theorem mode_select_nonzero_mdlen_rejected_witness :
    getB [0x55, 0x10, 0, 0, 0, 0, 0, 0, 4, 0] 1 &&& 0x10 ≠ 0 ∧
    sg_snt_resp_mode_select10 modePgsFirst dspA [0x55, 0x10, 0, 0, 0, 0, 0, 0, 4, 0]
        [0, 1, 0, 0] 4 =
      ⟨-1, ⟨SAM_STAT_CHECK_CONDITION, SPC_SK_ILLEGAL_REQUEST, INVALID_FIELD_IN_PARAM_LIST,
            0, 0, 255⟩, modePgsFirst, dspA⟩ :=
  ⟨by decide, mode_select_nonzero_mdlen_rejected modePgsFirst dspA _ _ 4
    (by decide) (by decide) (by decide) (by decide)⟩

/-- C10: for every CDB whose allocation-length field is zero, a successful
`sg_snt_resp_inq` or `sg_snt_resp_rluns` writes no bytes at all yet returns
the natural (unclamped) response length computed before clamping — e.g.
4160 for the vendor NICR VPD page 0xde — which can exceed both the
allocation length and `mx_di_len`. -/
theorem zero_alloc_returns_natural_len :
    (∀ dsp cdbp ctl ns hasNs mx resp0 n src,
      inqCore dsp cdbp ctl ns hasNs = .ok (n, src) → be16 cdbp 3 = 0 →
      sg_snt_resp_inq dsp cdbp ctl ns hasNs mx resp0 = ⟨(n : Int), [], resp0⟩) ∧
    (∀ cdbp ctl nsid mx resp0 n src,
      rlunsCore cdbp ctl nsid = .ok (n, src) → be32 cdbp 6 % 65536 = 0 →
      sg_snt_resp_rluns cdbp ctl nsid mx resp0 = ⟨(n : Int), [], resp0⟩) ∧
    (∀ dsp ctl ns hasNs mx resp0,
      sg_snt_resp_inq dsp [0x12, 0x1, 0xde, 0, 0, 0] ctl ns hasNs mx resp0 =
        ⟨4160, [], resp0⟩) := by
  refine ⟨?_, ?_, ?_⟩
  · intro dsp cdbp ctl ns hasNs mx resp0 n src hcore halloc
    unfold sg_snt_resp_inq
    rw [hcore]
    dsimp only
    rw [halloc, if_neg (show ¬ (0 : Nat) > 0 by norm_num)]
  · intro cdbp ctl nsid mx resp0 n src hcore halloc
    unfold sg_snt_resp_rluns
    rw [hcore]
    dsimp only
    rw [halloc, if_neg (show ¬ (0 : Nat) > 0 by norm_num)]
  · intro dsp ctl ns hasNs mx resp0
    rfl

/-- Witness for C10's universal REPORT LUNS conjunct: select_report 0,
allocation length 0, max_nsid 0 (empty controller data), `mx_di_len` 3 —
nothing is written and the natural length 8 > 3 is returned. -/
theorem zero_alloc_returns_natural_len_witness :
    rlunsCore [0xa0, 0, 0, 0, 0, 0, 0, 0, 0, 0] [] 1 =
      .ok (8, [0, 0, 0, 0, 0, 0, 0, 0]) ∧
    sg_snt_resp_rluns [0xa0, 0, 0, 0, 0, 0, 0, 0, 0, 0] [] 1 3 result0 =
      ⟨8, [], result0⟩ :=
  ⟨rfl, zero_alloc_returns_natural_len.2.1 _ [] 1 3 result0 8
    [0, 0, 0, 0, 0, 0, 0, 0] rfl (by decide)⟩

/-- The `rlen` of `sg_snt_resp_mode_select10` (bytes copied into `arr`). -/
def selRlen (cdbp : Bytes) (do_len : Nat) : Nat := min do_len (be16 cdbp 7)

/-- The `arr` reader of `sg_snt_resp_mode_select10`. -/
def selArr (cdbp dop : Bytes) (do_len : Nat) : Nat → Nat := arrRead dop (selRlen cdbp do_len)

/-- The mode-page offset `off = bd_len + 8` of `sg_snt_resp_mode_select10`. -/
def selOff (cdbp dop : Bytes) (do_len : Nat) : Nat :=
  256 * selArr cdbp dop do_len 6 + selArr cdbp dop do_len 7 + 8

/-- C4 counterexample: a MODE SELECT(10) parameter list that passes the CDB
and header checks and carries a vendor Unit-Attention page (0x0) whose
page-length byte (5) does not match the internal page's (0xe) is accepted
silently: the call succeeds with GOOD status instead of the CHECK CONDITION
the claim requires, and the page is simply not applied. -/
theorem mode_select_vs_ua_silent_mismatch_cex :
    (sg_snt_resp_mode_select10 modePgsFirst dspA cdbSelVsUa dopSelVsUa 15).ret = 15 ∧
    (sg_snt_resp_mode_select10 modePgsFirst dspA cdbSelVsUa dopSelVsUa 15).resp.sstatus ≠
      SAM_STAT_CHECK_CONDITION ∧
    selArr cdbSelVsUa dopSelVsUa 15 9 ≠ getB modePgsFirst.vs_ua 1 ∧
    (sg_snt_resp_mode_select10 modePgsFirst dspA cdbSelVsUa dopSelVsUa 15).mp =
      modePgsFirst := by
  decide

/-- C4 (amended): for a MODE SELECT(10) parameter list that passes the CDB
and header checks (single-page, no subpage format), the Caching (0x8),
Control (0xa) and Informational-Exceptions (0x1c) pages are accepted only
when the page-length byte matches the internal page's; a mismatch yields
CHECK CONDITION / ILLEGAL_REQUEST / INVALID_FIELD_IN_PARAM_LIST with the
byte pointer at the start of the page (byte `off`, bit 5).  For the vendor
Unit-Attention page (0x0) a mismatch is silently ignored: the call succeeds
and neither the mode pages nor the device state change. -/
theorem mode_select_page_length_check_amended (mp : ModePgs) (dsp : SgSntDevState)
    (cdbp dop : Bytes) (do_len : Nat)
    (hpf : getB cdbp 1 &&& 0x10 ≠ 0) (hsp : getB cdbp 1 &&& 0x1 = 0)
    (hpl : be16 cdbp 7 ≤ 512)
    (hmd0 : selArr cdbp dop do_len 0 = 0) (hmd1 : selArr cdbp dop do_len 1 = 0)
    (h80 : selArr cdbp dop do_len (selOff cdbp dop do_len) &&& 0x80 = 0)
    (h40 : selArr cdbp dop do_len (selOff cdbp dop do_len) &&& 0x40 = 0)
    (hfit : selArr cdbp dop do_len (selOff cdbp dop do_len + 1) + 2 +
      selOff cdbp dop do_len ≤ be16 cdbp 7) :
    (selArr cdbp dop do_len (selOff cdbp dop do_len) &&& 0x3f = 0x8 →
      selArr cdbp dop do_len (selOff cdbp dop do_len + 1) ≠ getB mp.caching 1 →
      sg_snt_resp_mode_select10 mp dsp cdbp dop do_len =
        ⟨-1, sg_snt_mk_sense_invalid_fld false (selOff cdbp dop do_len) 5, mp, dsp⟩) ∧
    (selArr cdbp dop do_len (selOff cdbp dop do_len) &&& 0x3f = 0xa →
      selArr cdbp dop do_len (selOff cdbp dop do_len + 1) ≠ getB mp.ctrl 1 →
      sg_snt_resp_mode_select10 mp dsp cdbp dop do_len =
        ⟨-1, sg_snt_mk_sense_invalid_fld false (selOff cdbp dop do_len) 5, mp, dsp⟩) ∧
    (selArr cdbp dop do_len (selOff cdbp dop do_len) &&& 0x3f = 0x1c →
      selArr cdbp dop do_len (selOff cdbp dop do_len + 1) ≠ getB mp.iec 1 →
      sg_snt_resp_mode_select10 mp dsp cdbp dop do_len =
        ⟨-1, sg_snt_mk_sense_invalid_fld false (selOff cdbp dop do_len) 5, mp, dsp⟩) ∧
    (selArr cdbp dop do_len (selOff cdbp dop do_len) &&& 0x3f = 0x0 →
      selArr cdbp dop do_len (selOff cdbp dop do_len + 1) ≠ getB mp.vs_ua 1 →
      sg_snt_resp_mode_select10 mp dsp cdbp dop do_len =
        ⟨((selRlen cdbp do_len : Nat) : Int), result0, mp, dsp⟩) := by
  unfold selOff selArr selRlen at *
  have hw : sg_snt_resp_mode_select10 mp dsp cdbp dop do_len =
      (let z := selBodyCore mp (be16 cdbp 7) (min do_len (be16 cdbp 7))
        (arrRead dop (min do_len (be16 cdbp 7)))
       ⟨z.ret, z.resp, z.mp, selApply dsp z⟩) := by
    unfold sg_snt_resp_mode_select10
    dsimp only
    rw [if_neg (by push_neg; exact ⟨hpf, hsp, by omega⟩)]
  refine ⟨?_, ?_, ?_, ?_⟩ <;> intro hm hne <;>
    rw [hw] <;>
    unfold selBodyCore <;>
    dsimp only <;>
    set p := be16 cdbp 7 with hp <;>
    set r := min do_len p with hr <;>
    set A := arrRead dop r with hA <;>
    set o := 256 * A 6 + A 7 + 8 with ho <;>
    rw [hmd0, hmd1, h80, h40, hm] <;>
    rw [if_neg (show ¬ 256 * 0 + 0 + 2 > 2 by norm_num)] <;>
    rw [if_neg (show ¬ (0 : Nat) ≠ 0 by norm_num)] <;>
    rw [if_neg (show ¬ (0 : Nat) ≠ 0 by norm_num)] <;>
    rw [if_neg (show ¬ (0 : Nat) ≠ 0 by norm_num)] <;>
    rw [if_neg (show ¬ A (o + 1) + 2 + o > p by omega)]
  · rw [if_pos (show (8 : Nat) = 8 from rfl), if_pos (show (0 : Nat) = 0 from rfl),
      if_neg hne]
    rfl
  · rw [if_neg (show ¬ (10 : Nat) = 8 by norm_num), if_pos (show (10 : Nat) = 10 from rfl),
      if_pos (show (0 : Nat) = 0 from rfl), if_neg hne]
    rfl
  · rw [if_neg (show ¬ (28 : Nat) = 8 by norm_num), if_neg (show ¬ (28 : Nat) = 10 by norm_num),
      if_pos (show (28 : Nat) = 28 from rfl), if_pos (show (0 : Nat) = 0 from rfl),
      if_neg hne]
    rfl
  · rw [if_neg (show ¬ (0 : Nat) = 8 by norm_num), if_neg (show ¬ (0 : Nat) = 10 by norm_num),
      if_neg (show ¬ (0 : Nat) = 28 by norm_num), if_pos (show (0 : Nat) = 0 from rfl),
      if_neg hne]
    rfl

/-- Witness for C4's amended claim: an IEC page with length byte 5 is
rejected with the parameter-list sense data pointing at byte 8 bit 5. -/
theorem mode_select_page_length_check_amended_witness :
    getB ([0x55, 0x10, 0, 0, 0, 0, 0, 0, 15, 0] : Bytes) 1 &&& 0x10 ≠ 0 ∧
    sg_snt_resp_mode_select10 modePgsFirst dspA [0x55, 0x10, 0, 0, 0, 0, 0, 0, 15, 0]
        [0, 0, 0, 0, 0, 0, 0, 0, 0x1c, 0x05, 1, 2, 3, 4, 5] 15 =
      ⟨-1, sg_snt_mk_sense_invalid_fld false 8 5, modePgsFirst, dspA⟩ := by
  refine ⟨by decide, ?_⟩
  have h := (mode_select_page_length_check_amended modePgsFirst dspA
    [0x55, 0x10, 0, 0, 0, 0, 0, 0, 15, 0] [0, 0, 0, 0, 0, 0, 0, 0, 0x1c, 0x05, 1, 2, 3, 4, 5]
    15 (by decide) (by decide) (by decide) (by decide) (by decide) (by decide) (by decide)
    (by decide)).2.2.1 (by decide) (by decide)
  have e : selOff [0x55, 0x10, 0, 0, 0, 0, 0, 0, 15, 0]
      [0, 0, 0, 0, 0, 0, 0, 0, 0x1c, 0x05, 1, 2, 3, 4, 5] 15 = 8 := by decide
  rw [e] at h
  exact h

/-- C8: an unmatched selector draws CHECK CONDITION, ILLEGAL_REQUEST,
INVALID_FIELD_IN_CDB pointing at the CDB byte holding it: a VPD page code
not handled by `sg_snt_resp_inq` (byte 2 bit 7), a mode page not handled by
`sg_snt_resp_mode_sense10` (byte 2 bit 5), and a `select_report` not
handled by `sg_snt_resp_rluns` (byte 2 bit 7); a non-zero subpage under
pages 0x2, 0x8 and 0x1c likewise draws (byte 2, bit 5). -/
theorem unsupported_selector_sense :
    (∀ mp dsp cdbp mx, (getB cdbp 2 &&& 0xc0) / 64 ≠ 3 →
      getB cdbp 2 &&& 0x3f ≠ 0x0 → getB cdbp 2 &&& 0x3f ≠ 0x2 →
      getB cdbp 2 &&& 0x3f ≠ 0x8 → getB cdbp 2 &&& 0x3f ≠ 0xa →
      getB cdbp 2 &&& 0x3f ≠ 0x1c → getB cdbp 2 &&& 0x3f ≠ 0x3f →
      sg_snt_resp_mode_sense10 mp dsp cdbp mx =
        ⟨-1, [], sg_snt_mk_sense_invalid_fld true 2 5, mp⟩) ∧
    (∀ mp dsp cdbp mx, (getB cdbp 2 &&& 0xc0) / 64 ≠ 3 →
      getB cdbp 2 &&& 0x3f = 0x3f → getB cdbp 3 ≠ 0 → getB cdbp 3 ≠ 0xff →
      sg_snt_resp_mode_sense10 mp dsp cdbp mx =
        ⟨-1, [], sg_snt_mk_sense_invalid_fld true 3 255, mp⟩) ∧
    (∀ mp dsp cdbp mx, (getB cdbp 2 &&& 0xc0) / 64 ≠ 3 →
      getB cdbp 2 &&& 0x3f = 0xa → getB cdbp 3 ≠ 0 → getB cdbp 3 ≠ 1 →
      sg_snt_resp_mode_sense10 mp dsp cdbp mx =
        ⟨-1, [], sg_snt_mk_sense_invalid_fld true 2 5, mp⟩) ∧
    (∀ dsp cdbp ctl ns hasNs mx resp0, getB cdbp 1 &&& 0x2 = 0 →
      getB cdbp 1 &&& 0x1 ≠ 0 →
      getB cdbp 2 ≠ 0 → getB cdbp 2 ≠ 0x80 → getB cdbp 2 ≠ 0x83 →
      getB cdbp 2 ≠ 0x86 → getB cdbp 2 ≠ 0x87 → getB cdbp 2 ≠ 0x92 →
      getB cdbp 2 ≠ 0xb1 → getB cdbp 2 ≠ 0xde →
      sg_snt_resp_inq dsp cdbp ctl ns hasNs mx resp0 =
        ⟨-1, [], sg_snt_mk_sense_invalid_fld true 2 7⟩) ∧
    (∀ cdbp ctl nsid mx resp0,
      getB cdbp 2 ≠ 0 → getB cdbp 2 ≠ 1 → getB cdbp 2 ≠ 2 →
      getB cdbp 2 ≠ 0x10 → getB cdbp 2 ≠ 0x11 → getB cdbp 2 ≠ 0x12 →
      sg_snt_resp_rluns cdbp ctl nsid mx resp0 =
        ⟨0, [], sg_snt_mk_sense_invalid_fld true 2 7⟩) ∧
    (∀ mp dsp cdbp mx, (getB cdbp 2 &&& 0xc0) / 64 ≠ 3 →
      getB cdbp 2 &&& 0x3f = 0x2 → getB cdbp 3 ≠ 0 →
      sg_snt_resp_mode_sense10 mp dsp cdbp mx =
        ⟨-1, [], sg_snt_mk_sense_invalid_fld true 2 5, mp⟩) ∧
    (∀ mp dsp cdbp mx, (getB cdbp 2 &&& 0xc0) / 64 ≠ 3 →
      getB cdbp 2 &&& 0x3f = 0x8 → getB cdbp 3 ≠ 0 →
      sg_snt_resp_mode_sense10 mp dsp cdbp mx =
        ⟨-1, [], sg_snt_mk_sense_invalid_fld true 2 5, mp⟩) ∧
    (∀ mp dsp cdbp mx, (getB cdbp 2 &&& 0xc0) / 64 ≠ 3 →
      getB cdbp 2 &&& 0x3f = 0x1c → getB cdbp 3 ≠ 0 →
      sg_snt_resp_mode_sense10 mp dsp cdbp mx =
        ⟨-1, [], sg_snt_mk_sense_invalid_fld true 2 5, mp⟩) := by
  refine ⟨?_, ?_, ?_, ?_, ?_, ?_, ?_, ?_⟩
  · intro mp dsp cdbp mx hpc h0 h2 h8 ha h1c h3f
    have hcore : modeSense10Core mp dsp cdbp =
        .error (sg_snt_mk_sense_invalid_fld true 2 5) := by
      unfold modeSense10Core
      dsimp only
      rw [if_neg hpc, if_neg h2, if_neg h8, if_neg ha, if_neg h1c, if_neg h3f, if_neg h0]
    simp [sg_snt_resp_mode_sense10, hcore]
  · intro mp dsp cdbp mx hpc hpg hs0 hsff
    have hpg2 : getB cdbp 2 &&& 0x3f ≠ 0x2 := by omega
    have hpg8 : getB cdbp 2 &&& 0x3f ≠ 0x8 := by omega
    have hpga : getB cdbp 2 &&& 0x3f ≠ 0xa := by omega
    have hpg1c : getB cdbp 2 &&& 0x3f ≠ 0x1c := by omega
    have hcore : modeSense10Core mp dsp cdbp =
        .error (sg_snt_mk_sense_invalid_fld true 3 255) := by
      unfold modeSense10Core
      dsimp only
      rw [if_neg hpc, if_neg hpg2, if_neg hpg8, if_neg hpga, if_neg hpg1c, if_pos hpg,
        if_neg (show ¬ (getB cdbp 3 = 0 ∨ getB cdbp 3 = 0xff) by push_neg; exact ⟨hs0, hsff⟩)]
    simp [sg_snt_resp_mode_sense10, hcore]
  · intro mp dsp cdbp mx hpc hpg hs0 hs1
    have hpg2 : getB cdbp 2 &&& 0x3f ≠ 0x2 := by omega
    have hpg8 : getB cdbp 2 &&& 0x3f ≠ 0x8 := by omega
    have hcore : modeSense10Core mp dsp cdbp =
        .error (sg_snt_mk_sense_invalid_fld true 2 5) := by
      unfold modeSense10Core
      dsimp only
      rw [if_neg hpc, if_neg hpg2, if_neg hpg8, if_pos hpg, if_neg hs0, if_neg hs1]
    simp [sg_snt_resp_mode_sense10, hcore]
  · intro dsp cdbp ctl ns hasNs mx resp0 hcmd hevpd h0 h80 h83 h86 h87 h92 hb1 hde
    have hcore : inqCore dsp cdbp ctl ns hasNs =
        .error (sg_snt_mk_sense_invalid_fld true 2 7) := by
      unfold inqCore
      dsimp only
      rw [if_neg (by simp [hcmd]), if_pos hevpd, if_neg h0, if_neg h80, if_neg h83,
        if_neg h86, if_neg h87, if_neg h92, if_neg hb1]
      rw [if_neg (by simpa [SG_NVME_VPD_NICR] using hde)]
    simp [sg_snt_resp_inq, hcore]
  · intro cdbp ctl nsid mx resp0 h0 h1 h2 h10 h11 h12
    have hcore : rlunsCore cdbp ctl nsid =
        .error (sg_snt_mk_sense_invalid_fld true 2 7) := by
      unfold rlunsCore
      dsimp only
      rw [if_neg (by push_neg; exact ⟨h0, h2⟩), if_neg (by push_neg; exact ⟨h1, h10, h12⟩),
        if_neg h11]
    simp [sg_snt_resp_rluns, hcore]
  · intro mp dsp cdbp mx hpc hpg hs0
    have hcore : modeSense10Core mp dsp cdbp =
        .error (sg_snt_mk_sense_invalid_fld true 2 5) := by
      unfold modeSense10Core
      dsimp only
      rw [if_neg hpc, if_pos hpg, if_neg hs0]
    simp [sg_snt_resp_mode_sense10, hcore]
  · intro mp dsp cdbp mx hpc hpg hs0
    have hpg2 : getB cdbp 2 &&& 0x3f ≠ 0x2 := by omega
    have hcore : modeSense10Core mp dsp cdbp =
        .error (sg_snt_mk_sense_invalid_fld true 2 5) := by
      unfold modeSense10Core
      dsimp only
      rw [if_neg hpc, if_neg hpg2, if_pos hpg,
        if_neg (show ¬ (pdt_is_disk dsp.pdt = true ∧ getB cdbp 3 = 0) from
          fun hc => hs0 hc.2)]
    simp [sg_snt_resp_mode_sense10, hcore]
  · intro mp dsp cdbp mx hpc hpg hs0
    have hpg2 : getB cdbp 2 &&& 0x3f ≠ 0x2 := by omega
    have hpg8 : getB cdbp 2 &&& 0x3f ≠ 0x8 := by omega
    have hpga : getB cdbp 2 &&& 0x3f ≠ 0xa := by omega
    have hcore : modeSense10Core mp dsp cdbp =
        .error (sg_snt_mk_sense_invalid_fld true 2 5) := by
      unfold modeSense10Core
      dsimp only
      rw [if_neg hpc, if_neg hpg2, if_neg hpg8, if_neg hpga, if_pos hpg, if_neg hs0]
    simp [sg_snt_resp_mode_sense10, hcore]

/-- Witness for C8's REPORT LUNS part at select_report 0x20. -/
theorem unsupported_selector_sense_witness :
    getB ([0xa0, 0, 0x20, 0, 0, 0, 0, 0, 255, 0] : Bytes) 2 ≠ 0 ∧
    sg_snt_resp_rluns [0xa0, 0, 0x20, 0, 0, 0, 0, 0, 255, 0] [] 1 64 result0 =
      ⟨0, [], sg_snt_mk_sense_invalid_fld true 2 7⟩ :=
  ⟨by decide, unsupported_selector_sense.2.2.2.2.1 _ [] 1 64 result0 (by decide) (by decide)
    (by decide) (by decide) (by decide) (by decide)⟩

/-- MODE SENSE(10) CDB for C6: page 0x3F, subpage 0xFF, pcontrol 0, DBD=0,
allocation length 256. -/
def msAllCdb : Bytes := [0x5a, 0, 0x3f, 0xff, 0, 0, 0, 1, 0, 0]

/-- C6: a MODE SENSE(10) for page 0x3F / subpage 0xFF / pcontrol 0 on a
disk-class device returns a 123-byte response whose first two bytes are the
big-endian mode-data-length `123 - 2`, followed by the 8-byte header rest
and 8-byte block descriptor, then the Disconnect-Reconnect, Caching,
Control, Control-Extension, Informational-Exceptions and vendor
Unit-Attention pages concatenated in exactly that order. -/
theorem mode_sense_all_pages_layout (mp : ModePgs) (dsp : SgSntDevState)
    (h : pdt_is_disk dsp.pdt = true) :
    sg_snt_resp_mode_sense10 mp dsp msAllCdb 256 =
      ⟨123,
       be16Bytes (123 - 2) ++ [0, 0x10, 0, 0, 0, 8] ++
         [0x00, 0x10, 0x00, 0x00, 0, 0, 0x02, 0x00] ++
         (resp_disconnect_pg 0 ++ (resp_caching_m_pg mp.caching 0 dsp.wce).2 ++
          resp_ctrl_m_pg mp.ctrl 0 ++ resp_ctrl_ext_m_pg 0 ++
          resp_iec_m_pg mp.iec 0 ++ resp_vs_ua_m_pg mp.vs_ua 0),
       result0, {mp with caching := (resp_caching_m_pg mp.caching 0 dsp.wce).1}⟩ := by
  have hcore : modeSense10Core mp dsp msAllCdb =
      .ok ((resp_caching_m_pg mp.caching 0 dsp.wce).1,
        be16Bytes (123 - 2) ++ [0, 0x10, 0, 0, 0, 8] ++
          [0x00, 0x10, 0x00, 0x00, 0, 0, 0x02, 0x00] ++
          (resp_disconnect_pg 0 ++ (resp_caching_m_pg mp.caching 0 dsp.wce).2 ++
           resp_ctrl_m_pg mp.ctrl 0 ++ resp_ctrl_ext_m_pg 0 ++
           resp_iec_m_pg mp.iec 0 ++ resp_vs_ua_m_pg mp.vs_ua 0)) := by
    unfold modeSense10Core msAllCdb
    simp [getB, h, show ((63 : Nat) &&& 192) / 64 = 0 from rfl]
  unfold sg_snt_resp_mode_sense10
  rw [hcore]
  dsimp only
  set F := (be16Bytes (123 - 2) ++ [0, 0x10, 0, 0, 0, 8] ++
      [0x00, 0x10, 0x00, 0x00, 0, 0, 0x02, 0x00] ++
      (resp_disconnect_pg 0 ++ (resp_caching_m_pg mp.caching 0 dsp.wce).2 ++
       resp_ctrl_m_pg mp.ctrl 0 ++ resp_ctrl_ext_m_pg 0 ++
       resp_iec_m_pg mp.iec 0 ++ resp_vs_ua_m_pg mp.vs_ua 0) : Bytes) with hF
  have hfull : F.length = 123 := by
    rw [hF]
    simp [be16Bytes]
  have hcpy : memcpyFrom F 123 = F := by
    have hself := memcpyFrom_self F
    rwa [hfull] at hself
  rw [show be16 msAllCdb 7 = 256 from rfl, hfull,
    show min (min (256 : Nat) 123) 256 = 123 from by norm_num, hcpy]
  rfl

/-- Witness for C6 at the initial static pages and a pdt-0 device. -/
theorem mode_sense_all_pages_layout_witness :
    pdt_is_disk dspA.pdt = true ∧
    sg_snt_resp_mode_sense10 modePgsFirst dspA msAllCdb 256 =
      ⟨123,
       be16Bytes (123 - 2) ++ [0, 0x10, 0, 0, 0, 8] ++
         [0x00, 0x10, 0x00, 0x00, 0, 0, 0x02, 0x00] ++
         (resp_disconnect_pg 0 ++ (resp_caching_m_pg modePgsFirst.caching 0 dspA.wce).2 ++
          resp_ctrl_m_pg modePgsFirst.ctrl 0 ++ resp_ctrl_ext_m_pg 0 ++
          resp_iec_m_pg modePgsFirst.iec 0 ++ resp_vs_ua_m_pg modePgsFirst.vs_ua 0),
       result0,
       {modePgsFirst with caching := (resp_caching_m_pg modePgsFirst.caching 0 dspA.wce).1}⟩ :=
  ⟨by decide, mode_sense_all_pages_layout modePgsFirst dspA (by decide)⟩

/-- C1: every SNTL response builder, on a successful (non-error) call,
writes exactly `min(natural_length, alloc_len, mx_di_len)` bytes into the
caller's buffer and never more than `mx_di_len` (the natural length is the
full response the builder assembled: the core's buffer length, clamped for
REPORT SUPPORTED OPERATION CODES by its page-sized work buffer; the
REPORT LUNS length is the C `int` value, hence the 2^31 bound). -/
theorem snt_builders_write_min_clamp :
    (∀ mp dsp cdbp mx caching' full,
      modeSense10Core mp dsp cdbp = .ok (caching', full) →
      (sg_snt_resp_mode_sense10 mp dsp cdbp mx).written.length =
        min full.length (min (be16 cdbp 7) mx) ∧
      (sg_snt_resp_mode_sense10 mp dsp cdbp mx).written.length ≤ mx) ∧
    (∀ cdbp oacs oncs mx pg_sz resp0 offset full,
      repOpcodesCore cdbp pg_sz = .ok (offset, full) →
      (sg_snt_resp_rep_opcodes cdbp oacs oncs mx pg_sz resp0).written.length =
        min (min offset (pg_sz - 72)) (min (be32 cdbp 6) mx) ∧
      (sg_snt_resp_rep_opcodes cdbp oacs oncs mx pg_sz resp0).written.length ≤ mx) ∧
    (∀ cdbp mx resp0, 4 ≤ be32 cdbp 6 →
      (sg_snt_resp_rep_tmfs cdbp mx resp0).written.length =
        min (repTmfsNatural cdbp) (min (be32 cdbp 6) mx) ∧
      (sg_snt_resp_rep_tmfs cdbp mx resp0).written.length ≤ mx) ∧
    (∀ dsp cdbp ctl ns hasNs mx resp0 n src,
      inqCore dsp cdbp ctl ns hasNs = .ok (n, src) →
      (sg_snt_resp_inq dsp cdbp ctl ns hasNs mx resp0).written.length =
        min n (min (be16 cdbp 3) mx) ∧
      (sg_snt_resp_inq dsp cdbp ctl ns hasNs mx resp0).written.length ≤ mx) ∧
    (∀ cdbp ctl nsid mx resp0 n src,
      rlunsCore cdbp ctl nsid = .ok (n, src) → n < 2 ^ 31 →
      (sg_snt_resp_rluns cdbp ctl nsid mx resp0).written.length =
        min n (min (be32 cdbp 6 % 65536) mx) ∧
      (sg_snt_resp_rluns cdbp ctl nsid mx resp0).written.length ≤ mx) := by
  refine ⟨?_, ?_, ?_, ?_, ?_⟩
  · intro mp dsp cdbp mx caching' full hcore
    unfold sg_snt_resp_mode_sense10
    rw [hcore]
    dsimp only
    rw [memcpyFrom_length]
    omega
  · intro cdbp oacs oncs mx pg_sz resp0 offset full hcore
    unfold sg_snt_resp_rep_opcodes
    rw [hcore]
    dsimp only
    rw [memcpyFrom_length]
    omega
  · intro cdbp mx resp0 halloc
    unfold sg_snt_resp_rep_tmfs
    rw [if_neg (show ¬ be32 cdbp 6 < 4 by omega)]
    dsimp only
    rw [memcpyFrom_length]
    omega
  · intro dsp cdbp ctl ns hasNs mx resp0 n src hcore
    unfold sg_snt_resp_inq
    rw [hcore]
    dsimp only
    by_cases halloc : be16 cdbp 3 > 0
    · rw [if_pos halloc]
      dsimp only
      rw [memcpyFrom_length]
      omega
    · rw [if_neg halloc]
      dsimp only
      simp only [List.length_nil]
      omega
  · intro cdbp ctl nsid mx resp0 n src hcore hbound
    unfold sg_snt_resp_rluns
    rw [hcore]
    dsimp only
    by_cases halloc : be32 cdbp 6 % 65536 > 0
    · rw [if_pos halloc]
      dsimp only
      rw [memcpyFrom_length]
      omega
    · rw [if_neg halloc]
      dsimp only
      simp only [List.length_nil]
      omega

/-- Witness for C1 at a REPORT SUPPORTED TASK MANAGEMENT FUNCTIONS call
with REPD set, allocation length 16 and `mx_di_len` 9: exactly
`min(16, 16, 9) = 9` bytes are written. -/
theorem snt_builders_write_min_clamp_witness :
    4 ≤ be32 ([0xa3, 0xd, 0x80, 0, 0, 0, 0, 0, 0, 16] : Bytes) 6 ∧
    ((sg_snt_resp_rep_tmfs [0xa3, 0xd, 0x80, 0, 0, 0, 0, 0, 0, 16] 9 result0).written.length =
      min (repTmfsNatural [0xa3, 0xd, 0x80, 0, 0, 0, 0, 0, 0, 16])
        (min (be32 ([0xa3, 0xd, 0x80, 0, 0, 0, 0, 0, 0, 16] : Bytes) 6) 9) ∧
     (sg_snt_resp_rep_tmfs [0xa3, 0xd, 0x80, 0, 0, 0, 0, 0, 0, 16] 9 result0).written.length ≤ 9) :=
  ⟨by decide, snt_builders_write_min_clamp.2.2.1 [0xa3, 0xd, 0x80, 0, 0, 0, 0, 0, 0, 16]
    9 result0 (by decide)⟩

end SgSnt
